import Mathlib

/-!
Verification development for the gsshapy grid-transformation core.

The Python sources embedded here (shallowly, over `ℚ`/`Int`/`List`) are:
* `gsshapy/grid/extension.py` — the `LSMGridReader` xarray accessor
  (spatial-reference resolution, geotransform, coordinates, variable
  subsetting);
* `gsshapy/grid/hrrr_to_gssha.py` — `download_hrrr_for_gssha`;
* `GSSHAPY/gsshapy/orm/hmet.py` — the HMET record codec.

Python exceptions are modelled with an explicit error type and `Except`;
NumPy arrays are nested lists of rationals; external libraries (osr, wrf,
pyproj) are modelled by constructors capturing their inputs, and the
pyproj point transform is taken as an explicit function parameter since
its numeric output is external to this repository.
-/

set_option autoImplicit false

set_option allowUnsafeReducibility true
attribute [local semireducible] Rat.add Rat.mul Rat.sub Rat.inv

namespace Gsshapy

instance instDecEqExcept {ε α : Type} [DecidableEq ε] [DecidableEq α] :
    DecidableEq (Except ε α) := fun a b =>
  match a, b with
  | .error e, .error f =>
    if h : e = f then isTrue (congrArg Except.error h)
    else isFalse (fun hh => h (Except.error.inj hh))
  | .ok x, .ok y =>
    if h : x = y then isTrue (congrArg Except.ok h)
    else isFalse (fun hh => h (Except.ok.inj hh))
  | .error _, .ok _ => isFalse (fun hh => Except.noConfusion hh)
  | .ok _, .error _ => isFalse (fun hh => Except.noConfusion hh)

/-- Python exceptions that the embedded code can raise. -/
inductive PyError where
  | keyError (k : String)
  | nameError (n : String)
  | valueError (msg : String)
  | attributeError (n : String)
  | typeError
  | indexError
  | recursionError
deriving DecidableEq

/-- A NetCDF-style attribute value: a string, a scalar, or a numeric array. -/
inductive AttrVal where
  | str (s : String)
  | num (q : ℚ)
  | numList (l : List ℚ)
deriving DecidableEq

/-- A 2-D numeric array (rows of rationals). -/
abbrev Array2 : Type := List (List ℚ)

/-- Attribute dictionary lookup (`attrs.get(k)` / `k in attrs`). -/
def attrsGet (l : List (String × AttrVal)) (k : String) : Option AttrVal :=
  (l.find? (fun p => p.1 == k)).map Prod.snd

/-- Shape-level model of an xarray variable: dimension names and sizes. -/
structure PyVar where
  dims : List String
  sizes : List Nat
deriving DecidableEq

/-- A NetCDF variable together with its attribute dictionary and values
(the latitude/longitude coordinate variables of the dataset). -/
structure CoordVar where
  values : Array2
  vattrs : List (String × AttrVal)
deriving DecidableEq

/-- Model of an xarray `Dataset` as consumed by `LSMGridReader`.
`latVar`/`lonVar` stand for `self._obj[self.y_var]` / `self._obj[self.x_var]`
(`none` when the dataset has no such variable, in which case the lookup
raises `KeyError`); `wrfXlat`/`wrfXlong` are the 3-D (time, y, x) coordinate
arrays that `wrf.latlon_coords` reads for WRF files; `yDim`/`xDim` mirror
the accessor's `y_dim`/`x_dim` settings (defaults `'y'`/`'x'`). -/
structure Dataset where
  attrs : List (String × AttrVal)
  latVar : Option CoordVar
  lonVar : Option CoordVar
  wrfXlat : List Array2
  wrfXlong : List Array2
  vars : List (String × PyVar)
  ySize : Nat
  xSize : Nat
  yDim : String
  xDim : String
deriving DecidableEq

/-- The resolved spatial reference.  External library results are captured
by the data they were constructed from: `importedProj4` is
`osr.ImportFromProj4` of a stored attribute value, `wrfProj` is
`wrf.projection.getproj(**proj_params)` re-exported through proj4, `lcc`
is the Lambert-conformal proj4 string assembled by
`_load_grib_projection`, `epsg` is `ImportFromEPSG`. -/
inductive Projection where
  | importedProj4 (v : AttrVal)
  | wrfProj (params : List (String × AttrVal))
  | lcc (lat1 lat2 lat0 lon0 : ℚ)
  | epsg (code : Nat)
deriving DecidableEq

/-- `c ∈ s` on character lists (Python substring test used for
`'Lambert Conformal' in lat_var_attrs['grid_type']`). -/
def leadsWith : List Char → List Char → Bool
  | [], _ => true
  | _ :: _, [] => false
  | a :: as, b :: bs => a == b && leadsWith as bs

/-- Substring containment on character lists. -/
def hasSubAux (pat : List Char) : List Char → Bool
  | [] => leadsWith pat []
  | c :: cs => leadsWith pat (c :: cs) || hasSubAux pat cs

/-- Python `pat in s` for strings. -/
def hasSub (pat s : String) : Bool :=
  hasSubAux pat.toList s.toList

/-- The WRF global attributes collected by `_load_wrf_projection`. -/
def wrfProjKeys : List String :=
  ["MAP_PROJ", "TRUELAT1", "TRUELAT2", "MOAD_CEN_LAT", "STAND_LON",
   "POLE_LAT", "POLE_LON", "CEN_LAT", "CEN_LON", "DX", "DY"]

/-- `_load_wrf_projection`: collect the WRF projection parameters present in
the global attributes and hand them to `wrf.projection.getproj`. -/
def loadWrfProjection (ds : Dataset) : Projection :=
  .wrfProj (wrfProjKeys.filterMap
    (fun k => (attrsGet ds.attrs k).map (fun v => (k, v))))

/-- Mean of a list of rationals (`numpy.mean`; the empty case, NaN in
NumPy, is modelled as 0 and never reached by the claims). -/
def listMean (l : List ℚ) : ℚ :=
  if l.length = 0 then 0 else l.sum / l.length

/-- Mean of a 2-D array. -/
def mean2 (a : Array2) : ℚ :=
  listMean a.flatten

/-- `lat_var_attrs[k][0]`: look the attribute up (KeyError when absent) and
take its first element (IndexError when the stored array is empty,
TypeError when the value is not subscriptable). -/
def attrIndex0 (l : List (String × AttrVal)) (k : String) : Except PyError ℚ :=
  match attrsGet l k with
  | none => .error (.keyError k)
  | some (.numList []) => .error .indexError
  | some (.numList (q :: _)) => .ok q
  | some (.num _) => .error .typeError
  | some (.str _) => .error .typeError

/-- `_load_grib_projection`: for a `grid_type` containing
`'Lambert Conformal'`, assemble the lcc proj4 string from `Latin1[0]`,
`Latin2[0]`, the mean of the latitude values, and `Lov[0]`.  Any other
label reaches `raise ValueError("Unsupported projection: ...".format(grid_type))`,
whose argument `grid_type` is an undefined name — evaluating it raises
`NameError` before the `ValueError` is ever constructed. -/
def loadGribProjection (ds : Dataset) : Except PyError Projection :=
  match ds.latVar with
  | none => .error (.keyError "lat")
  | some lv =>
    match attrsGet lv.vattrs "grid_type" with
    | none => .error (.keyError "grid_type")
    | some (.str gt) =>
      if hasSub "Lambert Conformal" gt then
        match attrIndex0 lv.vattrs "Latin1" with
        | .error e => .error e
        | .ok l1 =>
          match attrIndex0 lv.vattrs "Latin2" with
          | .error e => .error e
          | .ok l2 =>
            match attrIndex0 lv.vattrs "Lov" with
            | .error e => .error e
            | .ok lov => .ok (.lcc l1 l2 (mean2 lv.values) lov)
      else
        .error (.nameError "grid_type")
    | some _ => .error .typeError

/-- The `projection` property: `proj4` attribute if present, else the WRF
parameter set if `MAP_PROJ` is present, else the GRIB `grid_type` route if
the latitude variable carries that attribute (looking the latitude
variable up raises `KeyError` when it is absent), else EPSG 4326. -/
def projection (ds : Dataset) : Except PyError Projection :=
  match attrsGet ds.attrs "proj4" with
  | some v => .ok (.importedProj4 v)
  | none =>
    if (attrsGet ds.attrs "MAP_PROJ").isSome then
      .ok (loadWrfProjection ds)
    else
      match ds.latVar with
      | none => .error (.keyError "lat")
      | some lv =>
        if (attrsGet lv.vattrs "grid_type").isSome then
          loadGribProjection ds
        else
          .ok (.epsg 4326)

/-- `GetAuthorityCode(None)` on the resolved reference: the EPSG import
carries its code; proj4-imported references report no authority
(Python `None`). -/
def epsgOf (p : Projection) : Option String :=
  match p with
  | .epsg c => some (toString c)
  | _ => none

/-- Python `str` of an optional authority code (`str(None) = "None"`). -/
def epsgStr (o : Option String) : String :=
  match o with
  | some s => s
  | none => "None"

/-- An affine transform in the `affine` package's coefficient order:
`x' = a*x + b*y + c`, `y' = d*x + e*y + f`. -/
structure AffineT where
  a : ℚ
  b : ℚ
  c : ℚ
  d : ℚ
  e : ℚ
  f : ℚ
deriving DecidableEq

/-- Apply an affine transform to a point (the `affine.Affine.__mul__`). -/
def applyAffine (t : AffineT) (p : ℚ × ℚ) : ℚ × ℚ :=
  (t.a * p.1 + t.b * p.2 + t.c, t.d * p.1 + t.e * p.2 + t.f)

/-- Determinant of the linear part of an affine transform. -/
def detA (t : AffineT) : ℚ :=
  t.a * t.e - t.b * t.d

/-- Inverse of an (invertible) affine transform (`~Affine`). -/
def invAffine (t : AffineT) : AffineT where
  a := t.e / detA t
  b := -t.b / detA t
  c := (t.b * t.f - t.c * t.e) / detA t
  d := -t.d / detA t
  e := t.a / detA t
  f := (t.c * t.d - t.a * t.f) / detA t

/-- `Affine.from_gdal`: a six-element GDAL geotransform
`[c, a, b, f, d, e]` reordered into affine coefficients; any other length
is a `TypeError` (wrong arity). -/
def affineFromGdal (g : List ℚ) : Option AffineT :=
  match g with
  | [c, a, b, f, d, e] => some ⟨a, b, c, d, e, f⟩
  | _ => none

/-- `pixel2coord`: pixel-center coordinates through the affine transform,
`self.affine * (col+0.5, row+0.5)`. -/
def pixel2coordA (t : AffineT) (col row : ℚ) : ℚ × ℚ :=
  applyAffine t (col + 1/2, row + 1/2)

/-- Mean spacing between adjacent samples of a coordinate axis
(equals `(last - first) / (n - 1)` for a length-`n` axis). -/
def meanSpacing (l : List ℚ) : ℚ :=
  match l with
  | [] => 0
  | q :: _ =>
    if l.length ≤ 1 then 0
    else (l.getLastD q - q) / ((l.length : ℚ) - 1)

/-- Modelled from the spec: `geotransform_from_latlon` lives in
`gsshapy/lib/grid_tools.py`, which is not among the provided sources.
Per §4.2 it fits a geotransform from coordinate arrays assuming a regular
grid: pixel size is the mean spacing between adjacent samples along each
axis and the origin is the corner coordinate of the first pixel; GDAL
order `[x_origin, dx, 0, y_origin, 0, dy_signed]` (the spec's
irregular-spacing tolerance check is not needed by any claim and is
omitted). -/
def geotransformFromLatlon (lat lon : Array2) : List ℚ :=
  let dy := meanSpacing (lat.map (fun r => r.headD 0))
  let dx := meanSpacing (lon.headD [])
  let y0 := (lat.headD []).headD 0 - dy / 2
  let x0 := (lon.headD []).headD 0 - dx / 2
  [x0, dx, 0, y0, 0, dy]

/-- The fixed, WRF-specific axis-inversion correction: the grid is stored
upside down, so the latitude (row) axis is reversed (`[::-1]` /
`slice(None, None, -1)` on the y axis). -/
def axisInversionCorrection {α : Type} (a : List α) : List α :=
  a.reverse

/-- The `latlon` property.  For WRF data (`MAP_PROJ` present) the arrays
come from `wrf.latlon_coords` — reading the dataset's 3-D `XLAT`/`XLONG`
— taking band 0 and reversing the row axis (`lat[0, ::-1]`); indexing band
0 of an empty time axis is an `IndexError`.  Otherwise the `lon` and `lat`
variables are read directly (`KeyError` when absent, the longitude lookup
coming first in the source). -/
def latlon (ds : Dataset) : Except PyError (Array2 × Array2) :=
  if (attrsGet ds.attrs "MAP_PROJ").isSome then
    match ds.wrfXlat, ds.wrfXlong with
    | la :: _, lo :: _ =>
      .ok (axisInversionCorrection la, axisInversionCorrection lo)
    | _, _ => .error .indexError
  else
    match ds.lonVar with
    | none => .error (.keyError "lon")
    | some lov =>
      match ds.latVar with
      | none => .error (.keyError "lat")
      | some lav => .ok (lav.values, lov.values)

/-- The pyproj point transform
`transform(Proj(init='epsg:4326'), Proj(dst), x, y) = (proj_x, proj_y)`:
an external library whose numeric behaviour is outside this repository,
so it is passed in as an explicit parameter. -/
abbrev TransformFn : Type :=
  Projection → Array2 → Array2 → Array2 × Array2

/-- The `try:` block of `coords`: read `latlon`, resolve the projection
and reproject point-by-point, returning `(proj_y, proj_x)`. -/
def coordsTry (T : TransformFn) (ds : Dataset) :
    Except PyError (Array2 × Array2) :=
  match latlon ds with
  | .error e => .error e
  | .ok (lat, lon) =>
    match projection ds with
    | .error e => .error e
    | .ok p =>
      let r := T p lon lat
      .ok (r.2, r.1)

/-- The `geotransform` property: a stored `geotransform` attribute is used
verbatim (`[float(g) for g in ...]`); otherwise, when the resolved
reference is not EPSG 4326, a geotransform is fitted to the projected
coordinates from `coords()` — whose own fallback would re-enter this very
property, so a `KeyError` inside the `coords` try-block diverges
(`RecursionError`); otherwise it is fitted to the latitude/longitude
arrays. -/
def geotransform (T : TransformFn) (ds : Dataset) : Except PyError (List ℚ) :=
  match attrsGet ds.attrs "geotransform" with
  | some (.numList l) => .ok l
  | some _ => .error .typeError
  | none =>
    match projection ds with
    | .error e => .error e
    | .ok p =>
      if epsgStr (epsgOf p) ≠ "4326" then
        match coordsTry T ds with
        | .ok (py, px) => .ok (geotransformFromLatlon py px)
        | .error (.keyError _) => .error .recursionError
        | .error e => .error e
      else
        match latlon ds with
        | .error e => .error e
        | .ok (lat, lon) => .ok (geotransformFromLatlon lat lon)

/-- The `dx` property: `self.geotransform[1]`. -/
def dx (T : TransformFn) (ds : Dataset) : Except PyError ℚ :=
  match geotransform T ds with
  | .error e => .error e
  | .ok g =>
    match g.get? 1 with
    | some q => .ok q
    | none => .error .indexError

/-- The `dy` property: `-self.geotransform[-1]` — the *negation* of the
signed sixth coefficient. -/
def dy (T : TransformFn) (ds : Dataset) : Except PyError ℚ :=
  match geotransform T ds with
  | .error e => .error e
  | .ok g =>
    match g.getLast? with
    | some q => .ok (-q)
    | none => .error .indexError

/-- `pixel2coord` on a dataset: build the affine from the resolved
geotransform and apply it at the pixel center. -/
def pixel2coordDs (T : TransformFn) (ds : Dataset) (col row : ℚ) :
    Except PyError (ℚ × ℚ) :=
  match geotransform T ds with
  | .error e => .error e
  | .ok g =>
    match affineFromGdal g with
    | some t => .ok (pixel2coordA t col row)
    | none => .error .typeError

/-- The per-pixel fallback loops of `coords`: fill `(y, x)`-indexed arrays
with `pixel2coord(x, y)` over the full grid.  `pixel2coord` (and hence the
geotransform) is consulted only when both axes are non-empty; otherwise
the freshly allocated zero arrays are left as-is. -/
def buildGrid (T : TransformFn) (ds : Dataset) :
    Except PyError (Array2 × Array2) :=
  if ds.xSize = 0 ∨ ds.ySize = 0 then
    .ok (List.replicate ds.ySize (List.replicate ds.xSize 0),
         List.replicate ds.ySize (List.replicate ds.xSize 0))
  else
    match geotransform T ds with
    | .error e => .error e
    | .ok g =>
      match affineFromGdal g with
      | none => .error .typeError
      | some t =>
        .ok ((List.range ds.ySize).map (fun yi =>
               (List.range ds.xSize).map (fun xi =>
                 (pixel2coordA t (xi : ℚ) (yi : ℚ)).2)),
             (List.range ds.ySize).map (fun yi =>
               (List.range ds.xSize).map (fun xi =>
                 (pixel2coordA t (xi : ℚ) (yi : ℚ)).1)))

/-- The `coords` method.  If the try-block succeeds its projected arrays
are returned.  On `KeyError` the per-pixel fallback grid is built; with
`as_2d=True` the 2-D arrays are returned, but the `as_2d=False` branch
evaluates `y_coords.mean(axis=1)` — `y_coords` was only ever assigned
inside the failed try-block, so the name is undefined and the branch
raises `NameError` instead of returning 1-D coordinate lists. -/
def coords (T : TransformFn) (ds : Dataset) (as2d : Bool) :
    Except PyError (Array2 × Array2) :=
  match coordsTry T ds with
  | .ok r => .ok r
  | .error (.keyError _) =>
    match buildGrid T ds with
    | .error e => .error e
    | .ok (y2, x2) =>
      if as2d then .ok (y2, x2)
      else .error (.nameError "y_coords")
  | .error e => .error e

/-- A Python `slice(start, stop, step)` (`None` bounds as `Option`). -/
structure PySlice where
  start : Option Int
  stop : Option Int
  step : Int
deriving DecidableEq

/-- CPython `PySlice_AdjustIndices` normalisation of one bound against an
axis of length `n` (`neg` is whether the step is negative). -/
def adjIndex (i : Int) (n : Nat) (neg : Bool) : Int :=
  if i < 0 then
    if i + n < 0 then (if neg then -1 else 0) else i + n
  else
    if (n : Int) ≤ i then (if neg then (n : Int) - 1 else n) else i

/-- CPython slice length: number of indices of `start, start+step, ...`
strictly before `stop` (in the direction of `step`). -/
def sliceCount (start stop step : Int) : Nat :=
  if step < 0 then
    if stop < start then ((start - stop - 1) / (-step) + 1).toNat else 0
  else
    if start < stop then ((stop - start - 1) / step + 1).toNat else 0

/-- The index list a Python slice selects from an axis of length `n`
(`step = 0` raises in Python and never occurs in this code base). -/
def sliceIdx (s : PySlice) (n : Nat) : List Nat :=
  if s.step = 0 then []
  else
    let neg := s.step < 0
    let st := adjIndex (s.start.getD (if neg then (n : Int) - 1 else 0)) n neg
    let sp :=
      match s.stop with
      | none => if neg then -1 else (n : Int)
      | some i => adjIndex i n neg
    (List.range (sliceCount st sp s.step)).map
      (fun k : Nat => (st + (k : Int) * s.step).toNat)

/-- `slice(None)`. -/
def fullSlice : PySlice := ⟨none, none, 1⟩

/-- `slice(None, None, -1)`. -/
def revSlice : PySlice := ⟨none, none, -1⟩

/-- Re-index an axis whose currently selected source indices are `l` by a
further slice (composition of fancy indexing). -/
def applySel (s : PySlice) (l : List Nat) : List Nat :=
  (sliceIdx s l.length).map (fun k => l.getD k 0)

/-- The shape-level result of variable subsetting: dimension names plus,
per axis, the list of selected source indices. -/
structure VarSel where
  dims : List String
  index : List (List Nat)
deriving DecidableEq

/-- `var.get_axis_num(dim)`. -/
def getAxisNum (dims : List String) (d : String) : Except PyError Nat :=
  match dims.findIdx? (fun x => x == d) with
  | some i => .ok i
  | none => .error (.valueError d)

/-- `_getvar`: place `xslice`/`yslice` at the variable's x/y axis
positions in a list of otherwise-full slices, then index with
`var[:, :, sl[-2], sl[-1]]` for 4-D variables and `var[:, sl[-2], sl[-1]]`
otherwise — i.e. whatever slices ended up in the *last two* positions are
applied, to axes 2 and 3 (4-D) or axes 1 and 2 (otherwise); fewer than
three axes is an IndexError (too many indexers). -/
def pyGetvarRaw (yd xd : String) (v : PyVar) (xsl ysl : PySlice) :
    Except PyError VarSel :=
  match getAxisNum v.dims xd with
  | .error e => .error e
  | .ok xa =>
    match getAxisNum v.dims yd with
    | .error e => .error e
    | .ok ya =>
      let nd := v.dims.length
      let sl := (List.range nd).map
        (fun i => if i = ya then ysl else if i = xa then xsl else fullSlice)
      let at1 := if nd = 4 then nd - 2 else 1
      let at2 := if nd = 4 then nd - 1 else 2
      if nd < 3 then .error .indexError
      else
        .ok ⟨v.dims, (List.range nd).map (fun i =>
          if i = at1 then sliceIdx (sl.getD (nd - 2) fullSlice) (v.sizes.getD i 0)
          else if i = at2 then sliceIdx (sl.getD (nd - 1) fullSlice) (v.sizes.getD i 0)
          else List.range (v.sizes.getD i 0))⟩

/-- The xarray reduction methods `getvar` can dispatch to via `getattr`
(spec §4.5); any other name raises `AttributeError`. -/
def validReduceMethods : List String :=
  ["mean", "max", "min", "sum"]

/-- `getattr(data, calc_4d_method)(dim=calc_4d_dim)`: drop the named
dimension (xarray raises when the dimension is absent). -/
def reduceDim (m d : String) (v : VarSel) : Except PyError VarSel :=
  if validReduceMethods.contains m then
    match v.dims.findIdx? (fun x => x == d) with
    | none => .error (.valueError d)
    | some i => .ok ⟨v.dims.eraseIdx i, v.index.eraseIdx i⟩
  else .error (.attributeError m)

/-- Apply slices `s1`, `s2` to axes `a1`, `a2` of a selection. -/
def applyAtAxes (a1 a2 : Nat) (s1 s2 : PySlice) (v : VarSel) : VarSel :=
  ⟨v.dims, v.index.mapIdx (fun i l =>
    if i = a1 then applySel s1 l
    else if i = a2 then applySel s2 l
    else l)⟩

/-- `getvar`: the variable subsetter.  For WRF data the y bounds are first
transformed (the y dimension is stored backwards); the window is applied
by `_getvar`; a variable still carrying four dimensions requires both
`calc_4d_method` and `calc_4d_dim` — but the `raise ValueError(...)` on
the missing-parameter path formats with the undefined name `data_var`,
so what is actually raised is a `NameError`; finally, for WRF data the y
axis of the result is reversed (`slice(None, None, -1)` through the last
two axis positions, as in `_getvar`). -/
def getvar (ds : Dataset) (vname : String)
    (xIndexStart xIndexEnd yIndexStart yIndexEnd : Int)
    (calc4dMethod calc4dDim : Option String) : Except PyError VarSel :=
  let isWrf := (attrsGet ds.attrs "MAP_PROJ").isSome
  let ys :=
    if isWrf then
      if yIndexEnd < 0 then -yIndexEnd - 1 else (ds.ySize : Int) - yIndexEnd - 1
    else yIndexStart
  let ye :=
    if isWrf then
      if yIndexStart < 0 then -ys else (ds.ySize : Int) - yIndexStart - 1
    else yIndexEnd
  match (ds.vars.find? (fun p => p.1 == vname)).map Prod.snd with
  | none => .error (.keyError vname)
  | some v =>
    match pyGetvarRaw ds.yDim ds.xDim v
        ⟨some xIndexStart, some xIndexEnd, 1⟩ ⟨some ys, some ye, 1⟩ with
    | .error e => .error e
    | .ok raw =>
      let reduced : Except PyError VarSel :=
        if raw.dims.length = 4 then
          match calc4dMethod, calc4dDim with
          | some m, some d => reduceDim m d raw
          | _, _ => .error (.nameError "data_var")
        else .ok raw
      match reduced with
      | .error e => .error e
      | .ok data =>
        if isWrf then
          match getAxisNum data.dims ds.yDim with
          | .error e => .error e
          | .ok ya =>
            let nd := data.dims.length
            let sl := (List.range nd).map
              (fun i => if i = ya then revSlice else fullSlice)
            let a1 := if nd = 3 then 1 else 0
            let a2 := if nd = 3 then 2 else 1
            .ok (applyAtAxes a1 a2 (sl.getD (nd - 2) fullSlice)
                   (sl.getD (nd - 1) fullSlice) data)
        else .ok data

/-- The fixed forecast-hour strings of `download_hrrr_for_gssha`. -/
def hrrrHours : List String :=
  ["00", "01", "02", "03", "04", "05", "06", "07", "08", "09",
   "10", "11", "12", "13", "14", "15", "16", "17", "18"]

/-- The remote file name for one forecast timestep. -/
def hrrrFileName (startHour tsHour : String) : String :=
  "hrrr.t" ++ startHour ++ "z.wrfsfcf" ++ tsHour ++ ".grib2"

/-- `remove(f)` over the downloaded list: delete every file of `toRemove`
from `disk` (a missing file's `OSError` is swallowed by the source). -/
def removeAll (toRemove disk : List String) : List String :=
  disk.filter (fun f => ¬ toRemove.contains f)

/-- Result of one fetch call: the returned `downloaded_file_list`, the
files created by this call still on disk, and the number of HTTP
retrievals issued. -/
structure FetchRes where
  result : List String
  disk : List String
  attempts : Nat
deriving DecidableEq

/-- The retrieval loop of `download_hrrr_for_gssha`: one `requests.get`
per forecast hour; on success the response is streamed to disk and the
path appended; on the first non-success status every file in
`downloaded_file_list` is removed, the list is reset to `[]` and the loop
breaks. `ok h` is the success of the retrieval for hour `h`; `dl` is the
list (equal to the files written so far). -/
def hrrrLoop (ok : String → Bool) (startHour : String) :
    List String → List String → FetchRes
  | [], dl => ⟨dl, dl, 0⟩
  | h :: rest, dl =>
    if ok h then
      let r := hrrrLoop ok startHour rest (dl ++ [hrrrFileName startHour h])
      ⟨r.result, r.disk, r.attempts + 1⟩
    else
      ⟨[], removeAll dl dl, 1⟩

/-- `download_hrrr_for_gssha` (directory creation is idempotent and
elided; the bounding box and date only parameterise the request). -/
def downloadHrrrForGssha (ok : String → Bool) (startHour : String) : FetchRes :=
  hrrrLoop ok startHour hrrrHours []

/-- One HMET record, typed as the `hmet_records` schema declares its
columns (`Integer` date parts and middle fields, `Float` pressure and
radiation). -/
structure HmetRecord where
  year : Int
  month : Int
  day : Int
  hour : Int
  barometricPress : ℚ
  relHumidity : Int
  totalSkyCover : Int
  windSpeed : Int
  dryBulbTemp : Int
  directRad : ℚ
  globalRad : ℚ
deriving DecidableEq

/-- One whitespace-delimited token of an HMET line, by numeric shape:
`intTok z` is the `%s` rendering of an integer, `fixTok u k` a fixed-point
numeral with `k` digits after the point (value `u / 10^k`), and
`sciTok u k e` a scientific numeral `(u / 10^k) · 10^e` as `%g` emits for
large/small magnitudes.  The token kind records the spelling; `tokVal` is
the number `float()` reads back. -/
inductive Tok where
  | intTok (z : Int)
  | fixTok (u : Int) (k : Nat)
  | sciTok (u : Int) (k : Nat) (e : Int)
deriving DecidableEq

/-- The numeric value a token denotes (what `float()` parses). -/
def tokVal : Tok → ℚ
  | .intTok z => (z : ℚ)
  | .fixTok u k => (u : ℚ) / 10 ^ k
  | .sciTok u k e => (u : ℚ) / 10 ^ k * (10 : ℚ) ^ e

/-- Python `int()` on a token: only integer numerals parse. -/
def pyIntTok : Tok → Except PyError Int
  | .intTok z => .ok z
  | _ => .error (.valueError "invalid literal for int")

/-- Round to the nearest integer (ties modelled as in Mathlib's `round`,
half away from zero upward; no claim exercises a tie). -/
def rnd (q : ℚ) : Int :=
  round q

/-- `'%.2f' % q` (and generally `%.*f`): fixed-point with `k` decimals. -/
def fmtFixed (k : Nat) (q : ℚ) : Tok :=
  .fixTok (rnd (q * 10 ^ k)) k

/-- Fuel-driven base-10 digit count (structural, so it evaluates under
`decide`): `digitCount n n` is the number of decimal digits of `n ≥ 1`. -/
def digitCount : Nat → Nat → Nat
  | 0, _ => 1
  | f + 1, n => if n < 10 then 1 else digitCount f (n / 10) + 1

/-- `⌊log10 n⌋` for a positive natural. -/
def natLog10 (n : Nat) : Nat :=
  digitCount n n - 1

/-- `⌊log10 q⌋` for a positive rational: a digit-count estimate, corrected
by direct comparison against the neighbouring powers of ten. -/
def ilog10 (q : ℚ) : Int :=
  let c : Int := (natLog10 q.num.natAbs : Int) - (natLog10 q.den : Int)
  if q < (10 : ℚ) ^ c then c - 1
  else if (10 : ℚ) ^ (c + 1) ≤ q then c + 1
  else c

/-- `'%.3g' % q` (and generally `%.*g` with `p ≥ 1` significant digits):
round the mantissa to `p` digits, bump the exponent when rounding carries
to `10^p`, and choose scientific spelling exactly when the decimal
exponent falls outside `[-4, p)`; `%g` prints `0.0` as `0`. -/
def fmtG (p : Nat) (q : ℚ) : Tok :=
  if q = 0 then .fixTok 0 0
  else
    let e := ilog10 |q|
    let m := rnd (q * (10 : ℚ) ^ ((p : Int) - 1 - e))
    let e2 := if |m| = 10 ^ p then e + 1 else e
    let m2 := if |m| = 10 ^ p then m / 10 else m
    if e2 < -4 ∨ (p : Int) ≤ e2 then .sciTok m2 (p - 1) e2
    else if (p : Int) - 1 ≤ e2 then .fixTok (m2 * 10 ^ (e2 - ((p : Int) - 1)).toNat) 0
    else .fixTok m2 (((p : Int) - 1 - e2).toNat)

/-- `_writeToOpenFile`'s line for one record:
`'%s\t%s\t%s\t%s\t%.3g\t%s\t%s\t%s\t%s\t%.2f\t%.2f\n'`. -/
def writeRecord (r : HmetRecord) : List Tok :=
  [.intTok r.year, .intTok r.month, .intTok r.day, .intTok r.hour,
   fmtG 3 r.barometricPress,
   .intTok r.relHumidity, .intTok r.totalSkyCover, .intTok r.windSpeed,
   .intTok r.dryBulbTemp,
   fmtFixed 2 r.directRad, fmtFixed 2 r.globalRad]

/-- Gregorian leap year. -/
def isLeap (y : Int) : Bool :=
  (y % 4 == 0 && y % 100 != 0) || y % 400 == 0

/-- Days in a month (for `datetime`'s validation). -/
def daysInMonth (y m : Int) : Int :=
  if m = 2 then (if isLeap y then 29 else 28)
  else if m = 4 ∨ m = 6 ∨ m = 9 ∨ m = 11 then 30
  else 31

/-- The validation `datetime(year, month, day, hour)` performs. -/
def validDateTime (y mo d h : Int) : Bool :=
  1 ≤ y && y ≤ 9999 && 1 ≤ mo && mo ≤ 12 && 1 ≤ d && d ≤ daysInMonth y mo
    && 0 ≤ h && h ≤ 23

/-- `_readWithoutCommit` on one line: `line.strip().split()` gives the
tokens; `sline[0..3]` go through `int()` and the `datetime` constructor
(which validates them); `sline[4..10]` populate the record's remaining
columns under their declared schema types (`Float` for pressure and the
radiation fields, `Integer` for the middle four); fewer than eleven
tokens is an `IndexError`, trailing extra tokens are ignored. -/
def readRecord (line : List Tok) : Except PyError HmetRecord :=
  match line with
  | t0 :: t1 :: t2 :: t3 :: t4 :: t5 :: t6 :: t7 :: t8 :: t9 :: t10 :: _ =>
    match pyIntTok t0, pyIntTok t1, pyIntTok t2, pyIntTok t3 with
    | .ok y, .ok mo, .ok d, .ok h =>
      if validDateTime y mo d h then
        match pyIntTok t5, pyIntTok t6, pyIntTok t7, pyIntTok t8 with
        | .ok rh, .ok sc, .ok ws, .ok tp =>
          .ok ⟨y, mo, d, h, tokVal t4, rh, sc, ws, tp, tokVal t9, tokVal t10⟩
        | _, _, _, _ => .error (.valueError "invalid literal for int")
      else .error (.valueError "datetime")
    | _, _, _, _ => .error (.valueError "invalid literal for int")
  | _ => .error .indexError

/-- Rounding to `n` significant figures as the spec states it for the
pressure field: scale by `10^(n-1-⌊log10 q⌋)`, round, scale back. -/
def roundSigFigs (n : Nat) (q : ℚ) : ℚ :=
  if q = 0 then 0
  else
    let e := ilog10 |q|
    (rnd (q * (10 : ℚ) ^ ((n : Int) - 1 - e)) : ℚ) * (10 : ℚ) ^ (e - ((n : Int) - 1))

/-- Rounding to `k` decimal places as the spec states it for the
radiation fields. -/
def roundDecimals (k : Nat) (q : ℚ) : ℚ :=
  (rnd (q * 10 ^ k) : ℚ) / 10 ^ k

/-- A fixed concrete stand-in for the external pyproj transform, used to
instantiate witnesses (no claim depends on the transform's output). -/
def dummyT : TransformFn := fun _ x y => (x, y)

/-- The 3-D `(time, y, x)` variable of the generic grid datasets below. -/
def gridVar (t ys xs : Nat) : PyVar :=
  ⟨["time", "y", "x"], [t, ys, xs]⟩

/-- A dataset carrying one `(time, y, x)` variable `TMP`, WRF-flagged
(`MAP_PROJ` present) or not. -/
def gridDataset (wrf : Bool) (t ys xs : Nat) : Dataset :=
  ⟨if wrf then [("MAP_PROJ", .num 1)] else [], none, none, [], [],
   [("TMP", gridVar t ys xs)], ys, xs, "y", "x"⟩

/-- A dataset with a stored geotransform attribute but no coordinate
variables at all. -/
def dsNoLat : Dataset :=
  ⟨[("geotransform", .numList [0, 1, 0, 0, 0, -1])], none, none, [], [],
   [], 2, 2, "y", "x"⟩

/-- A dataset whose stored geotransform has a *positive* sixth
coefficient (a south-up grid). -/
def dsPosDy : Dataset :=
  ⟨[("geotransform", .numList [0, 1, 0, 0, 0, 2])], none, none, [], [],
   [], 2, 2, "y", "x"⟩

/-- A dataset with an explicit `proj4` attribute. -/
def dsProj4 : Dataset :=
  ⟨[("proj4", .str "+proj=longlat +datum=WGS84 +no_defs")], none, none,
   [], [], [], 2, 2, "y", "x"⟩

/-- A WRF dataset (with `MAP_PROJ` and one more projection attribute). -/
def dsWrfAttrs : Dataset :=
  ⟨[("MAP_PROJ", .num 1), ("TRUELAT1", .num 30)], none, none, [], [],
   [], 2, 2, "y", "x"⟩

/-- A GRIB dataset whose latitude variable carries a Lambert-Conformal
`grid_type` with its per-axis parameters. -/
def dsLcc : Dataset :=
  ⟨[],
   some ⟨[[30, 50]],
         [("grid_type", .str "Lambert Conformal (secant)"),
          ("Latin1", .numList [30]), ("Latin2", .numList [60]),
          ("Lov", .numList [-97])]⟩,
   some ⟨[[1, 2]], []⟩, [], [], [], 1, 2, "y", "x"⟩

/-- A GRIB dataset whose latitude variable carries an unrecognized
`grid_type` label. -/
def dsMercator : Dataset :=
  ⟨[],
   some ⟨[[30, 30], [40, 40]], [("grid_type", .str "Mercator (spherical)")]⟩,
   some ⟨[[1, 2], [1, 2]], []⟩, [], [], [], 2, 2, "y", "x"⟩

/-- A plain NetCDF dataset with latitude/longitude variables and no
projection metadata at all. -/
def dsGeographic : Dataset :=
  ⟨[], some ⟨[[30, 30], [40, 40]], []⟩, some ⟨[[1, 2], [1, 2]], []⟩,
   [], [], [], 2, 2, "y", "x"⟩

/-- A dataset holding one 4-D `(time, z, y, x)` variable `TMP`. -/
def ds4d : Dataset :=
  ⟨[], none, none, [], [],
   [("TMP", ⟨["time", "z", "y", "x"], [2, 3, 4, 5]⟩)], 4, 5, "y", "x"⟩

lemma range_map_getD (l : List Nat) :
    (List.range l.length).map (fun k => l.getD k 0) = l := by
  induction l with
  | nil => rfl
  | cons a l ih =>
    rw [List.length_cons, List.range_succ_eq_map, List.map_cons,
        List.map_map]
    have h : (fun k => (a :: l).getD k 0) ∘ Nat.succ = fun k => l.getD k 0 :=
      funext fun k => rfl
    rw [h, ih]
    rfl

lemma adjIndex_zero (n : Nat) : adjIndex 0 n false = 0 := by
  simp [adjIndex]

lemma sliceCount_one (sp : Int) : sliceCount 0 sp 1 = sp.toNat := by
  simp only [sliceCount, Int.ediv_one]
  split_ifs <;> omega

lemma sliceIdx_zero_stop (b : Int) (n : Nat) :
    sliceIdx ⟨some 0, some b, 1⟩ n =
      List.range ((adjIndex b n false).toNat) := by
  simp only [sliceIdx]
  norm_num
  rw [adjIndex_zero, sliceCount_one]
  apply List.ext_getElem
  · simp
  · intro i h1 h2
    simp only [List.getElem_map, List.getElem_range]
    omega

lemma adjIndex_negone_toNat (n : Nat) :
    (adjIndex (-1) n false).toNat = n - 1 := by
  simp [adjIndex]
  omega

lemma adjIndex_pred_toNat (n : Nat) :
    (adjIndex ((n : Int) - 1) n false).toNat = n - 1 := by
  simp [adjIndex]
  split_ifs <;> omega

lemma sliceIdx_zero_negone (n : Nat) :
    sliceIdx ⟨some 0, some (-1), 1⟩ n = List.range (n - 1) := by
  rw [sliceIdx_zero_stop, adjIndex_negone_toNat]

lemma sliceIdx_zero_pred (n : Nat) :
    sliceIdx ⟨some 0, some ((n : Int) - 1), 1⟩ n = List.range (n - 1) := by
  rw [sliceIdx_zero_stop, adjIndex_pred_toNat]

lemma sliceIdx_full (n : Nat) : sliceIdx fullSlice n = List.range n := by
  simp only [sliceIdx, fullSlice]
  norm_num
  rw [adjIndex_zero, sliceCount_one]
  apply List.ext_getElem
  · simp
  · intro i h1 h2
    simp only [List.getElem_map, List.getElem_range]
    omega

lemma adjIndex_last (n : Nat) :
    adjIndex ((n : Int) - 1) n true = (n : Int) - 1 := by
  simp [adjIndex]
  split_ifs <;> omega

lemma sliceCount_rev (n : Nat) : sliceCount ((n : Int) - 1) (-1) (-1) = n := by
  norm_num [sliceCount]
  omega

lemma sliceIdx_rev (n : Nat) :
    sliceIdx revSlice n = (List.range n).reverse := by
  simp only [sliceIdx, revSlice]
  norm_num
  rw [adjIndex_last, sliceCount_rev]
  apply List.ext_getElem
  · simp
  · intro i h1 h2
    simp only [List.getElem_map, List.getElem_range, List.getElem_reverse,
      List.length_range]
    omega

lemma applySel_full (l : List Nat) : applySel fullSlice l = l := by
  rw [applySel, sliceIdx_full, range_map_getD]

lemma applySel_rev (l : List Nat) : applySel revSlice l = l.reverse := by
  rw [applySel, sliceIdx_rev, List.map_reverse, range_map_getD]

lemma removeAll_self (l : List String) : removeAll l l = [] := by
  rw [removeAll, List.filter_eq_nil_iff]
  intro a ha
  simp [ha]

lemma hrrrLoop_fail (ok : String → Bool) (sh : String) :
    ∀ hours dl : List String, (∃ h ∈ hours, ok h = false) →
      hrrrLoop ok sh hours dl = ⟨[], [], (hours.takeWhile ok).length + 1⟩ := by
  intro hours
  induction hours with
  | nil =>
    intro dl hex
    rcases hex with ⟨h, hm, _⟩
    cases hm
  | cons a rest ih =>
    intro dl hex
    by_cases hok : ok a
    · have hr : ∃ h ∈ rest, ok h = false := by
        rcases hex with ⟨h, hm, hf⟩
        rcases List.mem_cons.mp hm with rfl | hm2
        · rw [hok] at hf
          cases hf
        · exact ⟨h, hm2, hf⟩
      simp only [hrrrLoop, if_pos hok]
      rw [ih _ hr]
      simp [List.takeWhile_cons, hok]
    · simp only [hrrrLoop, if_neg hok, removeAll_self]
      simp [List.takeWhile_cons, hok]

lemma ten_ne_zero_q : (10 : ℚ) ≠ 0 := by norm_num

lemma tokVal_sciTok (u : Int) (k : Nat) (e : Int) :
    tokVal (.sciTok u k e) = (u : ℚ) * (10 : ℚ) ^ (e - (k : Int)) := by
  rw [tokVal, zpow_sub₀ ten_ne_zero_q, zpow_natCast]
  field_simp

lemma tokVal_fixTok (u : Int) (k : Nat) :
    tokVal (.fixTok u k) = (u : ℚ) * (10 : ℚ) ^ (-(k : Int)) := by
  rw [tokVal, zpow_neg, zpow_natCast]
  field_simp

lemma branchVal (p : Nat) (hp : 1 ≤ p) (m2 e2 : Int) :
    tokVal (if e2 < -4 ∨ (p : Int) ≤ e2 then Tok.sciTok m2 (p - 1) e2
      else if (p : Int) - 1 ≤ e2 then
        Tok.fixTok (m2 * 10 ^ (e2 - ((p : Int) - 1)).toNat) 0
      else Tok.fixTok m2 (((p : Int) - 1 - e2).toNat)) =
      (m2 : ℚ) * (10 : ℚ) ^ (e2 - ((p : Int) - 1)) := by
  have hcast : ((p - 1 : Nat) : Int) = (p : Int) - 1 := by omega
  split_ifs with h1 h2
  · rw [tokVal_sciTok, hcast]
  · rw [tokVal_fixTok]
    push_cast
    rw [← zpow_natCast (10 : ℚ) ((e2 - ((p : Int) - 1)).toNat)]
    rw [show (((e2 - ((p : Int) - 1)).toNat : Int)) = e2 - ((p : Int) - 1) by
      omega]
    norm_num
  · rw [tokVal_fixTok]
    rw [show (-((((p : Int) - 1 - e2)).toNat : Int)) = e2 - ((p : Int) - 1) by
      omega]

lemma tokVal_fmtG (p : Nat) (hp : 1 ≤ p) (q : ℚ) :
    tokVal (fmtG p q) = roundSigFigs p q := by
  by_cases h0 : q = 0
  · simp [fmtG, roundSigFigs, h0, tokVal]
  · simp only [fmtG, roundSigFigs, if_neg h0]
    set e := ilog10 |q| with he
    set m := rnd (q * (10 : ℚ) ^ ((p : Int) - 1 - e)) with hm
    by_cases hc : |m| = (10 : Int) ^ p
    · simp only [hc, eq_self_iff_true, if_true]
      rw [branchVal p hp (m / 10) (e + 1)]
      obtain ⟨p2, rfl⟩ : ∃ p2, p = p2 + 1 := ⟨p - 1, by omega⟩
      rcases (abs_eq (by positivity : (0 : Int) ≤ 10 ^ (p2 + 1))).mp hc
        with hm10 | hm10 <;> rw [hm10]
      · have hdiv : (10 : Int) ^ (p2 + 1) / 10 = 10 ^ p2 := by
          rw [pow_succ]
          exact Int.mul_ediv_cancel _ (by norm_num)
        rw [hdiv]
        push_cast
        rw [← zpow_natCast (10 : ℚ) p2, ← zpow_natCast (10 : ℚ) (p2 + 1),
            ← zpow_add₀ ten_ne_zero_q, ← zpow_add₀ ten_ne_zero_q]
        congr 1
        push_cast
        ring
      · have hdvd : (10 : Int) ∣ 10 ^ (p2 + 1) := dvd_pow_self 10 (by omega)
        have hdivn : (-(10 : Int) ^ (p2 + 1)) / 10 = -(10 ^ (p2 + 1) / 10) :=
          Int.neg_ediv_of_dvd hdvd
        have hdiv2 : (10 : Int) ^ (p2 + 1) / 10 = 10 ^ p2 := by
          rw [pow_succ]
          exact Int.mul_ediv_cancel _ (by norm_num)
        rw [hdivn, hdiv2]
        push_cast
        rw [← zpow_natCast (10 : ℚ) p2, ← zpow_natCast (10 : ℚ) (p2 + 1)]
        rw [neg_mul, neg_mul, neg_inj, ← zpow_add₀ ten_ne_zero_q,
            ← zpow_add₀ ten_ne_zero_q]
        congr 1
        push_cast
        ring
    · simp only [if_neg hc]
      rw [branchVal p hp m e]

lemma tokVal_fmtFixed (k : Nat) (q : ℚ) :
    tokVal (fmtFixed k q) = roundDecimals k q := rfl

/-- The HMET record of the spec's round-trip scenario:
`(2015, 6, 1, 0, 1013.2, 55, 4, 3, 22, 150.25, 300.10)`. -/
def recW : HmetRecord :=
  ⟨2015, 6, 1, 0, 10132 / 10, 55, 4, 3, 22, 15025 / 100, 3001 / 10⟩

/-- The success predicate simulating a failure of the second forecast
hour's retrieval. -/
def ok01 : String → Bool := fun h => !(h == "01")

/-- Claim C1 (amended): spatial-reference resolution is first-match-wins —
an explicit `proj4` attribute is parsed directly; otherwise a `MAP_PROJ`
attribute selects the WRF construction; otherwise, *provided the dataset
carries the latitude variable*, a `grid_type` attribute on it selects the
grid-type construction and its absence yields the EPSG 4326 default. -/
theorem projection_resolution_order (ds : Dataset) :
    (∀ v, attrsGet ds.attrs "proj4" = some v →
      projection ds = .ok (.importedProj4 v)) ∧
    (attrsGet ds.attrs "proj4" = none →
      (attrsGet ds.attrs "MAP_PROJ").isSome = true →
      projection ds = .ok (loadWrfProjection ds)) ∧
    (∀ lv, attrsGet ds.attrs "proj4" = none →
      attrsGet ds.attrs "MAP_PROJ" = none → ds.latVar = some lv →
      (attrsGet lv.vattrs "grid_type").isSome = true →
      projection ds = loadGribProjection ds) ∧
    (∀ lv, attrsGet ds.attrs "proj4" = none →
      attrsGet ds.attrs "MAP_PROJ" = none → ds.latVar = some lv →
      attrsGet lv.vattrs "grid_type" = none →
      projection ds = .ok (.epsg 4326)) := by
  refine ⟨?_, ?_, ?_, ?_⟩
  · intro v hv
    simp [projection, hv]
  · intro h4 hm
    simp [projection, h4, hm]
  · intro lv h4 hm hl hg
    simp [projection, h4, hm, hl, hg]
  · intro lv h4 hm hl hg
    simp [projection, h4, hm, hl, hg]

/-- Claim C1, counterexample to the claim as stated: a dataset with no
projection metadata at all *and no latitude variable* does not fall back
to EPSG 4326 — the `grid_type` membership test looks the latitude
variable up and raises `KeyError`. -/
theorem projection_no_latvar_keyerror :
    attrsGet dsNoLat.attrs "proj4" = none ∧
    attrsGet dsNoLat.attrs "MAP_PROJ" = none ∧
    dsNoLat.latVar = none ∧
    projection dsNoLat = .error (.keyError "lat") ∧
    projection dsNoLat ≠ .ok (.epsg 4326) := by
  decide

theorem projection_resolution_order_witness :
    projection dsProj4 =
      .ok (.importedProj4 (.str "+proj=longlat +datum=WGS84 +no_defs")) ∧
    projection dsWrfAttrs =
      .ok (.wrfProj [("MAP_PROJ", .num 1), ("TRUELAT1", .num 30)]) ∧
    projection dsLcc = .ok (.lcc 30 60 40 (-97)) ∧
    projection dsGeographic = .ok (.epsg 4326) := by
  refine ⟨?_, ?_, ?_, ?_⟩
  · exact (projection_resolution_order dsProj4).1 _ (by decide)
  · have h := (projection_resolution_order dsWrfAttrs).2.1 (by decide)
      (by decide)
    rw [h]
    decide
  · have h := (projection_resolution_order dsLcc).2.2.1 _ (by decide)
      (by decide) rfl (by decide)
    rw [h]
    decide
  · exact (projection_resolution_order dsGeographic).2.2.2 _ (by decide)
      (by decide) rfl (by decide)

/-- Claim C2: for every valid (invertible) geotransform, `pixel2coord`
maps through the affine transform at the `(+0.5, +0.5)` cell-center
offset, and applying the inverse affine to its output recovers
`(col + 0.5, row + 0.5)` exactly. -/
theorem pixel2coord_affine_inverse (t : AffineT) (col row : ℚ)
    (h : detA t ≠ 0) :
    applyAffine (invAffine t) (pixel2coordA t col row) =
      (col + 1/2, row + 1/2) := by
  obtain ⟨a, b, c, d, e, f⟩ := t
  unfold detA at h
  simp only at h
  unfold applyAffine invAffine pixel2coordA applyAffine detA
  simp only
  rw [Prod.mk.injEq]
  constructor <;> field_simp <;> ring

theorem pixel2coord_affine_inverse_witness :
    detA ⟨1, 0, 10, 0, -1, 20⟩ ≠ 0 ∧
    applyAffine (invAffine ⟨1, 0, 10, 0, -1, 20⟩)
        (pixel2coordA ⟨1, 0, 10, 0, -1, 20⟩ 2 3) =
      (2 + 1/2, 3 + 1/2) := by
  constructor
  · decide
  · exact pixel2coord_affine_inverse ⟨1, 0, 10, 0, -1, 20⟩ 2 3 (by decide)

/-- Claim C3: on a 4-D variable, `getvar` without `calc_4d_method` or
`calc_4d_dim` always fails — but with `NameError` (the error-message
format references the undefined name `data_var`), not with a
`ValueError` naming the offending variable; supplying both with a valid
dimension name succeeds with a 3-D `(time, y, x)` result. -/
theorem getvar_missing_reduction_nameerror :
    getvar ds4d "TMP" 0 (-1) 0 (-1) none none =
      .error (.nameError "data_var") ∧
    getvar ds4d "TMP" 0 (-1) 0 (-1) (some "mean") (some "z") =
      .ok ⟨["time", "y", "x"], [[0, 1], [0, 1, 2], [0, 1, 2, 3]]⟩ := by
  decide

/-- Claim C4: the archive fetch is all-or-nothing — whenever some
forecast hour's retrieval fails, the returned list is empty, no file
downloaded by the call remains on disk, and retrievals stop right after
the first failing hour. -/
theorem download_hrrr_all_or_nothing (ok : String → Bool)
    (startHour : String) (hfail : ∃ h ∈ hrrrHours, ok h = false) :
    (downloadHrrrForGssha ok startHour).result = [] ∧
    (downloadHrrrForGssha ok startHour).disk = [] ∧
    (downloadHrrrForGssha ok startHour).attempts =
      (hrrrHours.takeWhile ok).length + 1 := by
  rw [downloadHrrrForGssha, hrrrLoop_fail ok startHour hrrrHours [] hfail]
  exact ⟨rfl, rfl, rfl⟩

theorem download_hrrr_all_or_nothing_witness :
    (downloadHrrrForGssha ok01 "00").result = [] ∧
    (downloadHrrrForGssha ok01 "00").disk = [] ∧
    (downloadHrrrForGssha ok01 "00").attempts = 2 := by
  have h := download_hrrr_all_or_nothing ok01 "00" ⟨"01", by decide, by decide⟩
  refine ⟨h.1, h.2.1, ?_⟩
  rw [h.2.2]
  decide

/-- Claim C5, counterexample to the claim as stated: with the default
bounds (`x_index_end = -1`, `y_index_end = -1`) `getvar` does *not*
select the full spatial extent — on a 3×3 grid it selects a 2×2 window,
dropping the last index of each spatial axis. -/
theorem getvar_default_bounds_counterexample :
    getvar (gridDataset false 1 3 3) "TMP" 0 (-1) 0 (-1) none none ≠
      .ok ⟨["time", "y", "x"],
           [List.range 1, List.range 3, List.range 3]⟩ ∧
    getvar (gridDataset false 1 3 3) "TMP" 0 (-1) 0 (-1) none none =
      .ok ⟨["time", "y", "x"], [[0], [0, 1], [0, 1]]⟩ := by
  decide

/-- Claim C5 (amended): with the default bounds the index window is
half-open with Python end-relative indexing, so the end bound `-1` means
"up to the *last* index, excluded": along each spatial axis `getvar`
selects `[0, size - 1)` — all but the last index — in both the WRF and
non-WRF paths (with the WRF result's y axis re-reversed). -/
theorem getvar_default_bounds_drop_last (w : Bool) (t ys xs : Nat) :
    getvar (gridDataset w t ys xs) "TMP" 0 (-1) 0 (-1) none none =
      .ok ⟨["time", "y", "x"],
           [List.range t,
            if w then (List.range (ys - 1)).reverse else List.range (ys - 1),
            List.range (xs - 1)]⟩ := by
  cases w
  case false =>
    have h : getvar (gridDataset false t ys xs) "TMP" 0 (-1) 0 (-1)
        none none =
        .ok ⟨["time", "y", "x"],
             [List.range t,
              sliceIdx ⟨some 0, some (-1), 1⟩ ys,
              sliceIdx ⟨some 0, some (-1), 1⟩ xs]⟩ := rfl
    rw [h, sliceIdx_zero_negone, sliceIdx_zero_negone]
    simp
  case true =>
    have h : getvar (gridDataset true t ys xs) "TMP" 0 (-1) 0 (-1)
        none none =
        .ok ⟨["time", "y", "x"],
             [List.range t,
              applySel revSlice
                (sliceIdx ⟨some 0, some ((ys : Int) - 0 - 1), 1⟩ ys),
              applySel fullSlice (sliceIdx ⟨some 0, some (-1), 1⟩ xs)]⟩ := rfl
    rw [h, show ((ys : Int) - 0 - 1) = (ys : Int) - 1 from by ring,
        sliceIdx_zero_pred, sliceIdx_zero_negone, applySel_rev, applySel_full]
    simp

/-- Claim C6: the meteorological codec round-trips every well-formed
record up to the stated precision — the integer date/time fields and the
integer-typed middle fields exactly, pressure to 3 significant figures,
the radiation fields to 2 decimal places. -/
theorem hmet_codec_roundtrip (r : HmetRecord)
    (h : validDateTime r.year r.month r.day r.hour = true) :
    readRecord (writeRecord r) =
      .ok { r with barometricPress := roundSigFigs 3 r.barometricPress,
                   directRad := roundDecimals 2 r.directRad,
                   globalRad := roundDecimals 2 r.globalRad } := by
  obtain ⟨y, mo, d, hh, bp, rh, sc, ws, tp, dr, gr⟩ := r
  have hred : readRecord (writeRecord ⟨y, mo, d, hh, bp, rh, sc, ws, tp,
      dr, gr⟩) =
      (if validDateTime y mo d hh then
        Except.ok ⟨y, mo, d, hh, tokVal (fmtG 3 bp), rh, sc, ws, tp,
          tokVal (fmtFixed 2 dr), tokVal (fmtFixed 2 gr)⟩
      else .error (.valueError "datetime")) := rfl
  rw [hred, if_pos h, tokVal_fmtG 3 (by norm_num) bp, tokVal_fmtFixed,
      tokVal_fmtFixed]

theorem hmet_codec_roundtrip_witness :
    validDateTime 2015 6 1 0 = true ∧
    readRecord (writeRecord recW) =
      .ok ⟨2015, 6, 1, 0, 1010, 55, 4, 3, 22, 601 / 4, 3001 / 10⟩ := by
  constructor
  · decide
  · have h := hmet_codec_roundtrip recW (by decide)
    rw [h]
    decide

/-- Claim C7 (amended): the derived `dy` is the *negation* of the signed
sixth geotransform coefficient; it equals that coefficient's absolute
value only when the stored coefficient is non-positive (the conventional
north-up case), not regardless of its sign. -/
theorem dy_neg_sixth_coefficient (T : TransformFn) (ds : Dataset)
    (g : List ℚ) (e : ℚ) (h1 : geotransform T ds = .ok g)
    (h2 : g.getLast? = some e) :
    dy T ds = .ok (-e) ∧ (e ≤ 0 → dy T ds = .ok |e|) := by
  have hd : dy T ds = .ok (-e) := by
    simp only [dy, h1, h2]
  refine ⟨hd, fun he => ?_⟩
  rw [hd, abs_of_nonpos he]

/-- Claim C7, counterexample to the claim as stated: with a stored
geotransform whose sixth coefficient is `+2`, `dy` is `-2`, not the
absolute value `2`. -/
theorem dy_abs_counterexample :
    geotransform dummyT dsPosDy = .ok [0, 1, 0, 0, 0, 2] ∧
    dy dummyT dsPosDy = .ok (-2) ∧
    dy dummyT dsPosDy ≠ .ok |(2 : ℚ)| := by
  decide

theorem dy_neg_sixth_coefficient_witness :
    dy dummyT dsNoLat = .ok (-(-1)) ∧
    dy dummyT dsNoLat = .ok |(-1 : ℚ)| := by
  have h := dy_neg_sixth_coefficient dummyT dsNoLat [0, 1, 0, 0, 0, -1]
    (-1) (by decide) (by decide)
  exact ⟨h.1, h.2 (by norm_num)⟩

/-- Claim C8: the WRF axis-inversion correction (reversing the latitude
axis) is involutive — applying it twice returns the original array. -/
theorem axis_inversion_involutive (a : List (List ℚ)) :
    axisInversionCorrection (axisInversionCorrection a) = a :=
  List.reverse_reverse a

/-- Claim C9: an unrecognized `grid_type` label never silently yields a
default projection — resolution fails — but the failure is a `NameError`
(the `ValueError`'s message formats the undefined name `grid_type`), so
the offending grid type is *not* identified in the error. -/
theorem grib_unsupported_gridtype_nameerror :
    hasSub "Lambert Conformal" "Mercator (spherical)" = false ∧
    projection dsMercator = .error (.nameError "grid_type") ∧
    projection dsMercator ≠ .ok (.epsg 4326) := by
  decide

/-- Claim C10: on a dataset with no geographic coordinate variables (the
latitude/longitude lookup raises `KeyError`, taking the per-pixel
`pixel2coord` fallback), `coords` with `as_2d = False` never returns a
value; when the fallback grid itself is built successfully the call
raises `NameError` for `y_coords`, the name the 1-D averaging branch
references without ever assigning it. -/
theorem coords_1d_always_raises (T : TransformFn) (ds : Dataset)
    (h1 : attrsGet ds.attrs "MAP_PROJ" = none) (h2 : ds.lonVar = none) :
    (∀ r, coords T ds false ≠ .ok r) ∧
    (∀ g, buildGrid T ds = .ok g →
      coords T ds false = .error (.nameError "y_coords")) := by
  have hc : coordsTry T ds = .error (.keyError "lon") := by
    simp [coordsTry, latlon, h1, h2]
  constructor
  · intro r
    simp only [coords, hc]
    cases hb : buildGrid T ds with
    | error e => simp
    | ok g => cases g with | mk y2 x2 => simp
  · intro g hg
    simp only [coords, hc, hg]
    cases g with | mk y2 x2 => simp

theorem coords_1d_always_raises_witness :
    attrsGet dsNoLat.attrs "MAP_PROJ" = none ∧
    dsNoLat.lonVar = none ∧
    coords dummyT dsNoLat false = .error (.nameError "y_coords") := by
  refine ⟨by decide, rfl, ?_⟩
  exact (coords_1d_always_raises dummyT dsNoLat (by decide) rfl).2
    ([[-1/2, -1/2], [-3/2, -3/2]], [[1/2, 3/2], [1/2, 3/2]]) (by decide)

end Gsshapy
